import Mathlib

/-!
Shallow embedding of editmsg.c (neomutt): the round-trip message edit
workflow. The functions edit_or_view_one_message and edit_or_view_message
are translated from the C source; every external call (filesystem, store
primitives, the external editor) is represented by an oracle record Env
giving the outcome the call would have reported, and the observable
effects (flag mutations on the target email, surrogate-file presence,
destination-store activity) are tracked in the result record.
-/

/-- Mailbox formats, from enum MailboxType; mbox and mmdf are the two
separator-bearing flat formats tested by the C code. -/
inductive MailboxType
  | mbox
  | mmdf
  | mh
  | maildir
  | imap
  | pop
  | nntp
  deriving DecidableEq

/-- Flag state of a struct Email handle: the mutable booleans the
workflow reads or writes. -/
structure Email where
  read : Bool
  old : Bool
  deleted : Bool
  purged : Bool
  tagged : Bool
  deriving DecidableEq

/-- CH_FROM from copy.h. -/
def CH_FROM : Nat := 2 ^ 4

/-- CH_NOSTATUS from copy.h. -/
def CH_NOSTATUS : Nat := 2 ^ 10

/-- CH_FORCE_FROM from copy.h. -/
def CH_FORCE_FROM : Nat := 2 ^ 16

/-- CH_NOLEN from copy.h. -/
def CH_NOLEN : Nat := 2 ^ 17

/-- MUTT_ADD_FROM from mx.h. -/
def MUTT_ADD_FROM : Nat := 2 ^ 0

/-- The test (magic == MUTT_MBOX || magic == MUTT_MMDF) that the C code
repeats for the two separator-bearing formats. -/
def sepBearing (magic : MailboxType) : Bool :=
  magic == MailboxType.mbox || magic == MailboxType.mmdf

/-- Lines 197-208 of editmsg.c: compute the pair (of, cf) of message-open
flags and header-copy flags from whether the first line of the edited
surrogate is a native envelope separator line and from the destination
mailbox format. -/
def chooseCopyFlags (firstLineIsFrom : Bool) (magic : MailboxType) : Nat × Nat :=
  let cf0 : Nat := if sepBearing magic then 0 else CH_NOSTATUS
  if firstLineIsFrom then
    if sepBearing magic then (0, CH_FROM ||| CH_FORCE_FROM) else (0, cf0)
  else
    (MUTT_ADD_FROM, cf0)

/-- Line 96-97 of editmsg.c: the header-copy flags used on extraction. -/
def extractChFlags (magic : MailboxType) : Nat :=
  CH_NOLEN ||| (if sepBearing magic then 0 else CH_NOSTATUS)

/-- Oracle for the outcomes of all external calls made during one run of
edit_or_view_one_message, in program order. -/
structure Env where
  tmpCreateOk : Bool
  appendOk : Bool
  statExtractOk : Bool
  extractSize : Nat
  truncateOk : Bool
  chmodOk : Bool
  baseline : Int
  statPostOk : Bool
  postSize : Nat
  postMtime : Int
  fopenOk : Bool
  openAppendOk : Bool
  firstLineIsFrom : Bool
  openNewOk : Bool
  copyHdrOk : Bool
  commitOk : Bool
  deriving DecidableEq

/-- Observable outcome of one run of edit_or_view_one_message: the C
return code, the final flag state of the target email, and a trace of the
externally visible effects. -/
structure OneResult where
  rc : Int
  email : Email
  tmpCreated : Bool
  tmpPresent : Bool
  truncateReq : Option Nat
  emptyMsg : Bool
  destOpened : Bool
  openNewCalled : Bool
  openNewFlags : Option (Bool × Bool)
  restoredFlags : Option (Bool × Bool)
  ofFlags : Option Nat
  cfFlags : Option Nat
  headerCopied : Bool
  bodyCopied : Bool
  committed : Bool
  deriving DecidableEq

/-- Lines 240-258 of editmsg.c, the bail block: close the surrogate
stream, unlink the surrogate when rc is nonnegative, and when rc = 0 mark
the original email deleted, purged and read, untagging it when the
DeleteUntag option du is set. -/
def bailOut (du : Bool) (rc : Int) (r : OneResult) : OneResult :=
  { r with
    rc := rc,
    tmpPresent := if rc < 0 then r.tmpCreated else false,
    email :=
      if rc = 0 then
        { r.email with
          deleted := true,
          purged := true,
          read := true,
          tagged := if du then false else r.email.tagged }
      else r.email }

/-- Lines 61-259 of editmsg.c: extract the message into a surrogate mbox
file, trim the trailing separator byte, run the external editor, and in
edit mode reintegrate a changed surrogate into the mailbox by appending a
new record. Every if mirrors a test of the C code in program order; note
that the truncate-failure branch and the open-new-record-failure branch
reach bail with rc still 0 from the preceding successful stat, exactly as
the C does. -/
def edit_or_view_one_message (edit : Bool) (magic : MailboxType) (du : Bool)
    (cur : Email) (env : Env) : OneResult :=
  let rinit : OneResult :=
    { rc := 0, email := cur, tmpCreated := false, tmpPresent := false,
      truncateReq := none, emptyMsg := false, destOpened := false,
      openNewCalled := false, openNewFlags := none, restoredFlags := none,
      ofFlags := none, cfFlags := none, headerCopied := false,
      bodyCopied := false, committed := false }
  if env.tmpCreateOk = false then
    { rinit with rc := -1 }
  else
    let r0 : OneResult := { rinit with tmpCreated := true, tmpPresent := true }
    if env.appendOk = false then bailOut du (-1) r0
    else if env.statExtractOk = false then bailOut du (-1) r0
    else if env.extractSize ≠ 0 ∧ env.truncateOk = false then
      bailOut du 0 { r0 with truncateReq := some (env.extractSize - 1) }
    else
      let r1 : OneResult :=
        { r0 with
          truncateReq :=
            if env.extractSize = 0 then none else some (env.extractSize - 1) }
      if env.statPostOk = false then bailOut du (-1) r1
      else if env.postSize = 0 then bailOut du 1 { r1 with emptyMsg := true }
      else if edit = true ∧ env.postMtime = env.baseline then bailOut du 1 r1
      else if edit = false ∧ env.postMtime ≠ env.baseline then bailOut du 1 r1
      else if edit = false then bailOut du 1 r1
      else if env.fopenOk = false then bailOut du (-1) r1
      else if env.openAppendOk = false then bailOut du (-1) r1
      else
        let ofcf := chooseCopyFlags env.firstLineIsFrom magic
        let cleared : Email := { cur with read := false, old := false }
        let restored : Email := { cleared with read := cur.read, old := cur.old }
        let r2 : OneResult :=
          { r1 with
            destOpened := true,
            ofFlags := some ofcf.1,
            cfFlags := some ofcf.2,
            openNewCalled := true,
            openNewFlags := some (cleared.read, cleared.old),
            restoredFlags := some (restored.read, restored.old),
            email := restored }
        if env.openNewOk = false then bailOut du 0 r2
        else
          let r3 : OneResult :=
            { r2 with headerCopied := env.copyHdrOk, bodyCopied := env.copyHdrOk }
          bailOut du (if env.commitOk = true then 0 else -1)
            { r3 with committed := env.commitOk }

/-- Final flag state an element of the batch list ends in: tagged emails
are processed by edit_or_view_one_message, untagged ones are skipped. -/
def procEmail (edit : Bool) (magic : MailboxType) (du : Bool)
    (p : Email × Env) : Email :=
  if p.1.tagged = true then (edit_or_view_one_message edit magic du p.1 p.2).email
  else p.1

/-- Lines 275-284 of editmsg.c: the batch loop over the mailbox, visiting
emails in stored order, skipping untagged ones, and returning -1 as soon
as one tagged email fails; the returned list is the final flag state of
every email. -/
def edit_or_view_loop (edit : Bool) (magic : MailboxType) (du : Bool) :
    List (Email × Env) → Int × List Email
  | [] => (0, [])
  | p :: rest =>
    if p.1.tagged = true then
      if (edit_or_view_one_message edit magic du p.1 p.2).rc = -1 then
        (-1, (edit_or_view_one_message edit magic du p.1 p.2).email
               :: rest.map Prod.fst)
      else
        ((edit_or_view_loop edit magic du rest).1,
         (edit_or_view_one_message edit magic du p.1 p.2).email
           :: (edit_or_view_loop edit magic du rest).2)
    else
      ((edit_or_view_loop edit magic du rest).1,
       p.1 :: (edit_or_view_loop edit magic du rest).2)

/-- Lines 270-285 of editmsg.c: with a single target email run the
per-message operation once on it, otherwise run the batch loop over the
collection. -/
def edit_or_view_message (edit : Bool) (magic : MailboxType) (du : Bool)
    (target : Option (Email × Env)) (msgs : List (Email × Env)) :
    Int × List Email :=
  match target with
  | some p =>
    ((edit_or_view_one_message edit magic du p.1 p.2).rc,
     [(edit_or_view_one_message edit magic du p.1 p.2).email])
  | none => edit_or_view_loop edit magic du msgs

/-- Lines 295-298 of editmsg.c. -/
def mutt_edit_message (magic : MailboxType) (du : Bool)
    (target : Option (Email × Env)) (msgs : List (Email × Env)) :
    Int × List Email :=
  edit_or_view_message true magic du target msgs

/-- Lines 308-311 of editmsg.c. -/
def mutt_view_message (magic : MailboxType) (du : Bool)
    (target : Option (Email × Env)) (msgs : List (Email × Env)) :
    Int × List Email :=
  edit_or_view_message false magic du target msgs

/-- The flag marking applied by the bail block on a successful run:
deleted, purged and read set, untagged when the DeleteUntag option du is
set. -/
def markFlags (du : Bool) (e : Email) : Email :=
  { e with
    deleted := true,
    purged := true,
    read := true,
    tagged := if du then false else e.tagged }

/-- An email with every flag clear. -/
def email0 : Email :=
  { read := false, old := false, deleted := false, purged := false, tagged := false }

/-- A tagged email with the other flags clear. -/
def emailTagged : Email := { email0 with tagged := true }

/-- An email whose read and old flags are set at entry. -/
def emailROld : Email := { email0 with read := true, old := true }

/-- Oracle for a fully successful edit run: every call succeeds and the
editor changed the surrogate (post-edit mtime differs from the baseline). -/
def envChanged : Env :=
  { tmpCreateOk := true, appendOk := true, statExtractOk := true,
    extractSize := 7, truncateOk := true, chmodOk := true, baseline := 100,
    statPostOk := true, postSize := 9, postMtime := 101, fopenOk := true,
    openAppendOk := true, firstLineIsFrom := false, openNewOk := true,
    copyHdrOk := true, commitOk := true }

/-- Oracle for a run where the editor left the surrogate untouched. -/
def envUnchanged : Env := { envChanged with postMtime := 100 }

/-- Oracle for a run where committing the new record fails. -/
def envCommitFail : Env := { envChanged with commitOk := false }

/-- Oracle for a run where truncating the trailing separator byte fails. -/
def envTruncFail : Env := { envChanged with truncateOk := false }

/-- Oracle for a run where opening the new destination record fails. -/
def envOpenNewFail : Env := { envChanged with openNewOk := false }

/-- Oracle for a run whose extraction produced an empty surrogate. -/
def envZeroExtract : Env := { envChanged with extractSize := 0 }

/-- Oracle for a run where the surrogate is empty after the editor. -/
def envEmptyPost : Env := { envChanged with postSize := 0 }

/-- Separator handling mode for the new destination record. -/
inductive SeparatorMode
  | force
  | add
  | neither
  deriving DecidableEq

/-- Decode the (of, cf) flag pair computed by the code into the separator
mode it denotes: MUTT_ADD_FROM in of means a synthesized separator is
added, CH_FROM together with CH_FORCE_FROM in cf means the existing
separator is preserved and forced, anything else applies neither mode. -/
def separatorModeOf (p : Nat × Nat) : SeparatorMode :=
  if p.1.testBit 0 then SeparatorMode.add
  else if p.2.testBit 4 && p.2.testBit 16 then SeparatorMode.force
  else SeparatorMode.neither

/-- Follows the words of claim C4: ForceSeparator when the first line is
an envelope separator line and the destination format is separator
bearing; AddSeparator whenever the first line is not a separator line;
neither mode otherwise. -/
def specSeparatorMode (firstLineIsFrom : Bool) (magic : MailboxType) : SeparatorMode :=
  if firstLineIsFrom then
    if sepBearing magic then SeparatorMode.force else SeparatorMode.neither
  else SeparatorMode.add


/-- Claim C4: during reintegration the header-copy mode is chosen by
classifying the first line of the edited surrogate: ForceSeparator when
that line is a native envelope separator line and the destination format
is mbox or MMDF, AddSeparator for every destination format when it is not
a separator line, and neither mode when it is a separator line but the
format is not separator bearing. -/
theorem claim_C4_separator_mode :
    ∀ (f : Bool) (m : MailboxType),
      separatorModeOf (chooseCopyFlags f m) = specSeparatorMode f m := by
  intro f m
  cases f <;> cases m <;> decide

/-- Claim C6: an edit-mode run whose post-edit modification time equals
the captured baseline and whose post-edit size is nonzero (all preceding
steps having succeeded) returns 1, leaves the email flags untouched, never
opens the destination store, commits nothing, and removes the surrogate. -/
theorem claim_C6_noop_unchanged (magic : MailboxType) (du : Bool) (cur : Email)
    (env : Env) (h1 : env.tmpCreateOk = true) (h2 : env.appendOk = true)
    (h3 : env.statExtractOk = true) (h4 : env.truncateOk = true)
    (h5 : env.statPostOk = true) (h6 : env.postSize ≠ 0)
    (h7 : env.postMtime = env.baseline) :
    (edit_or_view_one_message true magic du cur env).rc = 1 ∧
    (edit_or_view_one_message true magic du cur env).email = cur ∧
    (edit_or_view_one_message true magic du cur env).destOpened = false ∧
    (edit_or_view_one_message true magic du cur env).openNewCalled = false ∧
    (edit_or_view_one_message true magic du cur env).committed = false ∧
    (edit_or_view_one_message true magic du cur env).tmpPresent = false := by
  simp [edit_or_view_one_message, bailOut, h1, h2, h3, h4, h5, h6, h7]

/-- Witness for claim C6 at a concrete unchanged-edit run. -/
theorem claim_C6_noop_unchanged_witness :
    (edit_or_view_one_message true MailboxType.mbox false email0 envUnchanged).rc = 1 ∧
    (edit_or_view_one_message true MailboxType.mbox false email0 envUnchanged).email = email0 ∧
    (edit_or_view_one_message true MailboxType.mbox false email0 envUnchanged).destOpened = false ∧
    (edit_or_view_one_message true MailboxType.mbox false email0 envUnchanged).openNewCalled = false ∧
    (edit_or_view_one_message true MailboxType.mbox false email0 envUnchanged).committed = false ∧
    (edit_or_view_one_message true MailboxType.mbox false email0 envUnchanged).tmpPresent = false :=
  claim_C6_noop_unchanged MailboxType.mbox false email0 envUnchanged
    rfl rfl rfl rfl rfl (by decide) rfl

/-- Claim C7: when the surrogate has size zero after the editor returns
(all preceding steps having succeeded) the run reports the file empty,
performs no reintegration, returns the benign no-op code 1, leaves the
email flags untouched, and still removes the surrogate. -/
theorem claim_C7_empty_file (edit : Bool) (magic : MailboxType) (du : Bool)
    (cur : Email) (env : Env) (h1 : env.tmpCreateOk = true)
    (h2 : env.appendOk = true) (h3 : env.statExtractOk = true)
    (h4 : env.truncateOk = true) (h5 : env.statPostOk = true)
    (h6 : env.postSize = 0) :
    (edit_or_view_one_message edit magic du cur env).rc = 1 ∧
    (edit_or_view_one_message edit magic du cur env).emptyMsg = true ∧
    (edit_or_view_one_message edit magic du cur env).email = cur ∧
    (edit_or_view_one_message edit magic du cur env).destOpened = false ∧
    (edit_or_view_one_message edit magic du cur env).openNewCalled = false ∧
    (edit_or_view_one_message edit magic du cur env).committed = false ∧
    (edit_or_view_one_message edit magic du cur env).tmpPresent = false := by
  simp [edit_or_view_one_message, bailOut, h1, h2, h3, h4, h5, h6]

/-- Witness for claim C7 at a concrete empty-surrogate run. -/
theorem claim_C7_empty_file_witness :
    (edit_or_view_one_message true MailboxType.mbox false email0 envEmptyPost).rc = 1 ∧
    (edit_or_view_one_message true MailboxType.mbox false email0 envEmptyPost).emptyMsg = true ∧
    (edit_or_view_one_message true MailboxType.mbox false email0 envEmptyPost).email = email0 ∧
    (edit_or_view_one_message true MailboxType.mbox false email0 envEmptyPost).destOpened = false ∧
    (edit_or_view_one_message true MailboxType.mbox false email0 envEmptyPost).openNewCalled = false ∧
    (edit_or_view_one_message true MailboxType.mbox false email0 envEmptyPost).committed = false ∧
    (edit_or_view_one_message true MailboxType.mbox false email0 envEmptyPost).tmpPresent = false :=
  claim_C7_empty_file true MailboxType.mbox false email0 envEmptyPost
    rfl rfl rfl rfl rfl rfl

/-- Counterexample to claim C3 as stated: in view mode with the
trailing-separator truncation failing, the run returns 0 (the Committed
code) and sets the deleted, purged and read flags on the original email,
because the C code reaches bail with rc still 0 from the successful stat. -/
theorem claim_C3_counterexample :
    (edit_or_view_one_message false MailboxType.mbox false email0 envTruncFail).rc = 0 ∧
    (edit_or_view_one_message false MailboxType.mbox false email0 envTruncFail).email.deleted = true ∧
    (edit_or_view_one_message false MailboxType.mbox false email0 envTruncFail).email.purged = true ∧
    (edit_or_view_one_message false MailboxType.mbox false email0 envTruncFail).email.read = true := by
  decide

set_option maxHeartbeats 1000000 in
/-- Claim C3 (amended): in view mode, provided the trailing-separator
truncation succeeds, the run never opens the destination store, never
opens or commits a new record, leaves the email flags untouched, and never
returns the Committed code 0. -/
theorem claim_C3_view_immutable (magic : MailboxType) (du : Bool) (cur : Email)
    (env : Env) (h : env.truncateOk = true) :
    (edit_or_view_one_message false magic du cur env).destOpened = false ∧
    (edit_or_view_one_message false magic du cur env).openNewCalled = false ∧
    (edit_or_view_one_message false magic du cur env).committed = false ∧
    (edit_or_view_one_message false magic du cur env).email = cur ∧
    (edit_or_view_one_message false magic du cur env).rc ≠ 0 := by
  generalize hEq : edit_or_view_one_message false magic du cur env = r
  simp only [edit_or_view_one_message] at hEq
  split_ifs at hEq <;> subst hEq <;> simp_all [bailOut]

/-- Witness for the amended claim C3 at a concrete view-mode run whose
surrogate was altered by the editor. -/
theorem claim_C3_view_immutable_witness :
    (edit_or_view_one_message false MailboxType.mbox false email0 envChanged).destOpened = false ∧
    (edit_or_view_one_message false MailboxType.mbox false email0 envChanged).openNewCalled = false ∧
    (edit_or_view_one_message false MailboxType.mbox false email0 envChanged).committed = false ∧
    (edit_or_view_one_message false MailboxType.mbox false email0 envChanged).email = email0 ∧
    (edit_or_view_one_message false MailboxType.mbox false email0 envChanged).rc ≠ 0 :=
  claim_C3_view_immutable MailboxType.mbox false email0 envChanged rfl

/-- Characterization of the final email state and of the flag values
recorded at the open-new-record call, for every run: a run returning 0
ends with the marked flags, any other run ends with the entry flags, and
whenever the new record is opened the call sees cleared read and old
flags and the restore puts back the entry values. -/
theorem run_email_spec (edit : Bool) (magic : MailboxType) (du : Bool)
    (cur : Email) (env : Env) :
    ((edit_or_view_one_message edit magic du cur env).rc = 0 →
      (edit_or_view_one_message edit magic du cur env).email = markFlags du cur) ∧
    ((edit_or_view_one_message edit magic du cur env).rc ≠ 0 →
      (edit_or_view_one_message edit magic du cur env).email = cur) ∧
    ((edit_or_view_one_message edit magic du cur env).openNewCalled = true →
      (edit_or_view_one_message edit magic du cur env).openNewFlags = some (false, false) ∧
      (edit_or_view_one_message edit magic du cur env).restoredFlags = some (cur.read, cur.old)) := by
  generalize hEq : edit_or_view_one_message edit magic du cur env = r
  simp only [edit_or_view_one_message] at hEq
  by_cases h1 : env.tmpCreateOk = false
  · rw [if_pos h1] at hEq; subst hEq
    refine ⟨fun h => ?_, fun h => ?_, fun h => ?_⟩ <;>
      first | rfl | exact absurd rfl h | exact ⟨rfl, rfl⟩ | simp [bailOut] at h
  rw [if_neg h1] at hEq
  by_cases h2 : env.appendOk = false
  · rw [if_pos h2] at hEq; subst hEq
    refine ⟨fun h => ?_, fun h => ?_, fun h => ?_⟩ <;>
      first | rfl | exact absurd rfl h | exact ⟨rfl, rfl⟩ | simp [bailOut] at h
  rw [if_neg h2] at hEq
  by_cases h3 : env.statExtractOk = false
  · rw [if_pos h3] at hEq; subst hEq
    refine ⟨fun h => ?_, fun h => ?_, fun h => ?_⟩ <;>
      first | rfl | exact absurd rfl h | exact ⟨rfl, rfl⟩ | simp [bailOut] at h
  rw [if_neg h3] at hEq
  by_cases h4 : env.extractSize ≠ 0 ∧ env.truncateOk = false
  · rw [if_pos h4] at hEq; subst hEq
    refine ⟨fun h => ?_, fun h => ?_, fun h => ?_⟩ <;>
      first | rfl | exact absurd rfl h | exact ⟨rfl, rfl⟩ | simp [bailOut] at h
  rw [if_neg h4] at hEq
  by_cases h5 : env.statPostOk = false
  · rw [if_pos h5] at hEq; subst hEq
    refine ⟨fun h => ?_, fun h => ?_, fun h => ?_⟩ <;>
      first | rfl | exact absurd rfl h | exact ⟨rfl, rfl⟩ | simp [bailOut] at h
  rw [if_neg h5] at hEq
  by_cases h6 : env.postSize = 0
  · rw [if_pos h6] at hEq; subst hEq
    refine ⟨fun h => ?_, fun h => ?_, fun h => ?_⟩ <;>
      first | rfl | exact absurd rfl h | exact ⟨rfl, rfl⟩ | simp [bailOut] at h
  rw [if_neg h6] at hEq
  by_cases h7 : edit = true ∧ env.postMtime = env.baseline
  · rw [if_pos h7] at hEq; subst hEq
    refine ⟨fun h => ?_, fun h => ?_, fun h => ?_⟩ <;>
      first | rfl | exact absurd rfl h | exact ⟨rfl, rfl⟩ | simp [bailOut] at h
  rw [if_neg h7] at hEq
  by_cases h8 : edit = false ∧ env.postMtime ≠ env.baseline
  · rw [if_pos h8] at hEq; subst hEq
    refine ⟨fun h => ?_, fun h => ?_, fun h => ?_⟩ <;>
      first | rfl | exact absurd rfl h | exact ⟨rfl, rfl⟩ | simp [bailOut] at h
  rw [if_neg h8] at hEq
  by_cases h9 : edit = false
  · rw [if_pos h9] at hEq; subst hEq
    refine ⟨fun h => ?_, fun h => ?_, fun h => ?_⟩ <;>
      first | rfl | exact absurd rfl h | exact ⟨rfl, rfl⟩ | simp [bailOut] at h
  rw [if_neg h9] at hEq
  by_cases h10 : env.fopenOk = false
  · rw [if_pos h10] at hEq; subst hEq
    refine ⟨fun h => ?_, fun h => ?_, fun h => ?_⟩ <;>
      first | rfl | exact absurd rfl h | exact ⟨rfl, rfl⟩ | simp [bailOut] at h
  rw [if_neg h10] at hEq
  by_cases h11 : env.openAppendOk = false
  · rw [if_pos h11] at hEq; subst hEq
    refine ⟨fun h => ?_, fun h => ?_, fun h => ?_⟩ <;>
      first | rfl | exact absurd rfl h | exact ⟨rfl, rfl⟩ | simp [bailOut] at h
  rw [if_neg h11] at hEq
  by_cases h12 : env.openNewOk = false
  · rw [if_pos h12] at hEq; subst hEq
    refine ⟨fun h => ?_, fun h => ?_, fun h => ?_⟩ <;>
      first | rfl | exact absurd rfl h | exact ⟨rfl, rfl⟩ | simp [bailOut] at h
  rw [if_neg h12] at hEq
  by_cases h13 : env.commitOk = true
  · rw [if_pos h13] at hEq; subst hEq
    refine ⟨fun h => ?_, fun h => ?_, fun h => ?_⟩ <;>
      first | rfl | exact absurd rfl h | exact ⟨rfl, rfl⟩ | simp [bailOut] at h
  · rw [if_neg h13] at hEq; subst hEq
    refine ⟨fun h => ?_, fun h => ?_, fun h => ?_⟩ <;>
      first | rfl | exact absurd rfl h | exact ⟨rfl, rfl⟩ | simp [bailOut] at h

/-- Claim C5: every run returning 0 marks the original email deleted,
purged and read, and untags it exactly when the DeleteUntag option is
set; every run returning any other code leaves the deleted, purged, read
and tagged flags exactly as they were at entry. -/
theorem claim_C5_success_marks_flags (edit : Bool) (magic : MailboxType)
    (du : Bool) (cur : Email) (env : Env) :
    ((edit_or_view_one_message edit magic du cur env).rc = 0 →
      (edit_or_view_one_message edit magic du cur env).email.deleted = true ∧
      (edit_or_view_one_message edit magic du cur env).email.purged = true ∧
      (edit_or_view_one_message edit magic du cur env).email.read = true ∧
      (edit_or_view_one_message edit magic du cur env).email.tagged
        = (if du then false else cur.tagged)) ∧
    ((edit_or_view_one_message edit magic du cur env).rc ≠ 0 →
      (edit_or_view_one_message edit magic du cur env).email.deleted = cur.deleted ∧
      (edit_or_view_one_message edit magic du cur env).email.purged = cur.purged ∧
      (edit_or_view_one_message edit magic du cur env).email.read = cur.read ∧
      (edit_or_view_one_message edit magic du cur env).email.tagged = cur.tagged) := by
  refine ⟨fun h => ?_, fun h => ?_⟩
  · rw [(run_email_spec edit magic du cur env).1 h]
    simp [markFlags]
  · rw [(run_email_spec edit magic du cur env).2.1 h]
    exact ⟨rfl, rfl, rfl, rfl⟩

/-- Witness for claim C5: a committed run marks the flags and a
commit-failure run leaves them untouched. -/
theorem claim_C5_success_marks_flags_witness :
    ((edit_or_view_one_message true MailboxType.mbox true emailTagged envChanged).email.deleted = true ∧
     (edit_or_view_one_message true MailboxType.mbox true emailTagged envChanged).email.purged = true ∧
     (edit_or_view_one_message true MailboxType.mbox true emailTagged envChanged).email.read = true ∧
     (edit_or_view_one_message true MailboxType.mbox true emailTagged envChanged).email.tagged
       = (if true then false else emailTagged.tagged)) ∧
    ((edit_or_view_one_message true MailboxType.mbox true emailTagged envCommitFail).email.deleted = emailTagged.deleted ∧
     (edit_or_view_one_message true MailboxType.mbox true emailTagged envCommitFail).email.purged = emailTagged.purged ∧
     (edit_or_view_one_message true MailboxType.mbox true emailTagged envCommitFail).email.read = emailTagged.read ∧
     (edit_or_view_one_message true MailboxType.mbox true emailTagged envCommitFail).email.tagged = emailTagged.tagged) :=
  ⟨(claim_C5_success_marks_flags true MailboxType.mbox true emailTagged envChanged).1 (by decide),
   (claim_C5_success_marks_flags true MailboxType.mbox true emailTagged envCommitFail).2 (by decide)⟩

/-- Claim C9: whenever the new destination record is opened, the read and
old flags passed to the open call are both cleared, and immediately after
the call they are restored to exactly their entry values; and after any
run returning a code other than 0 the final read and old flags equal
their entry values. -/
theorem claim_C9_flag_dance (edit : Bool) (magic : MailboxType) (du : Bool)
    (cur : Email) (env : Env) :
    ((edit_or_view_one_message edit magic du cur env).openNewCalled = true →
      (edit_or_view_one_message edit magic du cur env).openNewFlags = some (false, false)) ∧
    ((edit_or_view_one_message edit magic du cur env).openNewCalled = true →
      (edit_or_view_one_message edit magic du cur env).restoredFlags = some (cur.read, cur.old)) ∧
    ((edit_or_view_one_message edit magic du cur env).rc ≠ 0 →
      (edit_or_view_one_message edit magic du cur env).email.read = cur.read ∧
      (edit_or_view_one_message edit magic du cur env).email.old = cur.old) := by
  refine ⟨fun h => ((run_email_spec edit magic du cur env).2.2 h).1,
    fun h => ((run_email_spec edit magic du cur env).2.2 h).2, fun h => ?_⟩
  rw [(run_email_spec edit magic du cur env).2.1 h]
  exact ⟨rfl, rfl⟩

/-- Witness for claim C9 at a concrete run that opens the new record and
then fails to commit, starting from an email whose read and old flags are
set. -/
theorem claim_C9_flag_dance_witness :
    (edit_or_view_one_message true MailboxType.mbox false emailROld envCommitFail).openNewFlags
      = some (false, false) ∧
    (edit_or_view_one_message true MailboxType.mbox false emailROld envCommitFail).restoredFlags
      = some (emailROld.read, emailROld.old) ∧
    ((edit_or_view_one_message true MailboxType.mbox false emailROld envCommitFail).email.read
        = emailROld.read ∧
     (edit_or_view_one_message true MailboxType.mbox false emailROld envCommitFail).email.old
        = emailROld.old) :=
  ⟨(claim_C9_flag_dance true MailboxType.mbox false emailROld envCommitFail).1 (by decide),
   (claim_C9_flag_dance true MailboxType.mbox false emailROld envCommitFail).2.1 (by decide),
   (claim_C9_flag_dance true MailboxType.mbox false emailROld envCommitFail).2.2 (by decide)⟩

/-- The batch loop distributes over a prefix none of whose tagged
elements fails: the prefix emails end in their processed state and the
loop continues on the rest. -/
theorem loop_no_fail_prefix (edit : Bool) (magic : MailboxType) (du : Bool)
    (pre rest : List (Email × Env))
    (h : ∀ p ∈ pre, p.1.tagged = true →
      (edit_or_view_one_message edit magic du p.1 p.2).rc ≠ -1) :
    edit_or_view_loop edit magic du (pre ++ rest) =
      ((edit_or_view_loop edit magic du rest).1,
       pre.map (procEmail edit magic du) ++ (edit_or_view_loop edit magic du rest).2) := by
  induction pre with
  | nil => simp [edit_or_view_loop]
  | cons p ps ih =>
    have hp := h p (by simp)
    have hps : ∀ q ∈ ps, q.1.tagged = true →
        (edit_or_view_one_message edit magic du q.1 q.2).rc ≠ -1 :=
      fun q hq => h q (by simp [hq])
    by_cases ht : p.1.tagged = true
    · simp [edit_or_view_loop, ht, hp ht, procEmail, ih hps]
    · simp [edit_or_view_loop, ht, procEmail, ih hps]

/-- Claim C8: without a single target the collection is visited in stored
order, the per-message operation runs exactly on the tagged messages, and
the first tagged message whose run returns -1 stops the batch: the batch
returns -1, messages before it keep the results of their runs, untagged
messages are untouched, and every later message is left unprocessed; with
a single target the per-message operation runs once on it and its code and
final flags are returned. -/
theorem claim_C8_batch_stop_on_failure (edit : Bool) (magic : MailboxType)
    (du : Bool) (pre post : List (Email × Env)) (e : Email) (env : Env)
    (hpre : ∀ p ∈ pre, p.1.tagged = true →
      (edit_or_view_one_message edit magic du p.1 p.2).rc ≠ -1)
    (htag : e.tagged = true)
    (hfail : (edit_or_view_one_message edit magic du e env).rc = -1) :
    (edit_or_view_message edit magic du none (pre ++ (e, env) :: post) =
      (-1, pre.map (procEmail edit magic du) ++
        (edit_or_view_one_message edit magic du e env).email :: post.map Prod.fst)) ∧
    (∀ (p : Email × Env) (msgs : List (Email × Env)),
      edit_or_view_message edit magic du (some p) msgs =
        ((edit_or_view_one_message edit magic du p.1 p.2).rc,
         [(edit_or_view_one_message edit magic du p.1 p.2).email])) := by
  constructor
  · have hdist := loop_no_fail_prefix edit magic du pre ((e, env) :: post) hpre
    simp only [edit_or_view_message]
    rw [hdist]
    simp [edit_or_view_loop, htag, hfail]
  · intro p msgs
    rfl

/-- Witness for claim C8, matching the spec scenario: three tagged
messages, the second failing at commit; the batch returns -1, the first
message keeps its committed state, and the third is untouched. -/
theorem claim_C8_batch_stop_on_failure_witness :
    edit_or_view_message true MailboxType.mbox false none
      ([(emailTagged, envChanged)] ++ (emailTagged, envCommitFail) :: [(emailTagged, envChanged)]) =
      (-1, [(emailTagged, envChanged)].map (procEmail true MailboxType.mbox false) ++
        (edit_or_view_one_message true MailboxType.mbox false emailTagged envCommitFail).email
          :: [(emailTagged, envChanged)].map Prod.fst) :=
  (claim_C8_batch_stop_on_failure true MailboxType.mbox false
    [(emailTagged, envChanged)] [(emailTagged, envChanged)] emailTagged envCommitFail
    (by decide) rfl (by decide)).1

/-- Claim C10: without a single target, when no tagged message run
returns -1 the batch returns 0, even when every tagged run returned 1 or
no message is tagged at all. -/
theorem claim_C10_batch_success_code (edit : Bool) (magic : MailboxType)
    (du : Bool) (msgs : List (Email × Env))
    (h : ∀ p ∈ msgs, p.1.tagged = true →
      (edit_or_view_one_message edit magic du p.1 p.2).rc ≠ -1) :
    (edit_or_view_message edit magic du none msgs).1 = 0 := by
  simp only [edit_or_view_message]
  induction msgs with
  | nil => rfl
  | cons p ps ih =>
    have hp := h p (by simp)
    have hps : ∀ q ∈ ps, q.1.tagged = true →
        (edit_or_view_one_message edit magic du q.1 q.2).rc ≠ -1 :=
      fun q hq => h q (by simp [hq])
    by_cases ht : p.1.tagged = true
    · simp [edit_or_view_loop, ht, hp ht, ih hps]
    · simp [edit_or_view_loop, ht, ih hps]

/-- Witness for claim C10: a batch of one tagged message whose run
returned 1 and one untagged message returns 0. -/
theorem claim_C10_batch_success_code_witness :
    (edit_or_view_message true MailboxType.mbox false none
      [(emailTagged, envUnchanged), (email0, envChanged)]).1 = 0 :=
  claim_C10_batch_success_code true MailboxType.mbox false
    [(emailTagged, envUnchanged), (email0, envChanged)] (by decide)

/-- Claim C1 failing input, lines 217-226 of editmsg.c: in an edit run
whose surrogate was modified, when opening the new destination record
fails the code reaches bail with rc still 0 from the earlier successful
stat, so it returns 0, marks the original deleted, purged and read, and
removes the surrogate, although nothing was committed — contradicting the
claimed Failed result with flags unchanged and surrogate preserved. -/
theorem claim_C1_open_new_failure_marks_original :
    (edit_or_view_one_message true MailboxType.mbox false email0 envOpenNewFail).rc = 0 ∧
    (edit_or_view_one_message true MailboxType.mbox false email0 envOpenNewFail).email.deleted = true ∧
    (edit_or_view_one_message true MailboxType.mbox false email0 envOpenNewFail).email.purged = true ∧
    (edit_or_view_one_message true MailboxType.mbox false email0 envOpenNewFail).email.read = true ∧
    (edit_or_view_one_message true MailboxType.mbox false email0 envOpenNewFail).tmpPresent = false ∧
    (edit_or_view_one_message true MailboxType.mbox false email0 envOpenNewFail).committed = false ∧
    (edit_or_view_one_message true MailboxType.mbox false email0 envOpenNewFail).openNewCalled = true := by
  decide

/-- Claim C2 failing input, lines 122-126 of editmsg.c: the truncation to
size - 1 is attempted (truncateReq records the requested size 6 for a
7-byte surrogate), but when the truncate call fails the code reaches bail
with rc still 0 from the successful stat, so it returns 0, marks the
original deleted, purged and read, and removes the surrogate —
contradicting the claimed hard failure with the original unmarked. -/
theorem claim_C2_truncate_failure_not_hard_error :
    (edit_or_view_one_message true MailboxType.mbox false email0 envZeroExtract).truncateReq = none ∧
    (edit_or_view_one_message true MailboxType.mbox false email0 envTruncFail).truncateReq = some 6 ∧
    (edit_or_view_one_message true MailboxType.mbox false email0 envTruncFail).rc = 0 ∧
    (edit_or_view_one_message true MailboxType.mbox false email0 envTruncFail).email.deleted = true ∧
    (edit_or_view_one_message true MailboxType.mbox false email0 envTruncFail).email.purged = true ∧
    (edit_or_view_one_message true MailboxType.mbox false email0 envTruncFail).email.read = true ∧
    (edit_or_view_one_message true MailboxType.mbox false email0 envTruncFail).destOpened = false ∧
    (edit_or_view_one_message true MailboxType.mbox false email0 envTruncFail).tmpPresent = false := by
  decide
